import Mathlib

/-
Verification of the core of an Advent of Code helper CLI (src/src/main.rs):
directory-convention environment resolution, answer classification, and the
HTTP fetch and submit interaction layer.  The program is shallowly embedded
as pure functions over explicit inputs (directory names, the value of the
session environment variable, the HTTP status of each request sent, response
bodies, filesystem operation outcomes), producing event traces that record
requests, sleeps, messages, file mutations, process exits and panics.
-/

namespace Aoc

/-- Substring containment, modelling Rust str::contains with a string
pattern: true when the pattern occurs anywhere in the string, and always
true for the empty pattern. -/
def containsSub (pat : List Char) : List Char → Bool
  | [] => pat.isEmpty
  | c :: rest => pat.isPrefixOf (c :: rest) || containsSub pat rest

/-- Rust s.contains(pat) on strings. -/
def strContains (s pat : String) : Bool := containsSub pat.data s.data

/-- Scanner of Rust String::replace with an empty replacement string: walks
left to right, removing each non-overlapping occurrence of the pattern.  The
third argument counts characters of a matched occurrence still to drop. -/
def stripAllGo : List Char → List Char → Nat → List Char
  | _, [], _ => []
  | pat, _ :: rest, Nat.succ k => stripAllGo pat rest k
  | [], c :: rest, 0 => c :: stripAllGo [] rest 0
  | p :: ptl, c :: rest, 0 =>
    if (p :: ptl).isPrefixOf (c :: rest) then stripAllGo (p :: ptl) rest ptl.length
    else c :: stripAllGo (p :: ptl) rest 0

/-- Rust name.replace(pat, "") as used throughout main.rs. -/
def replaceRemove (s pat : String) : String := ⟨stripAllGo pat.data s.data 0⟩

/-- Value of a run of decimal digits. -/
def digitsVal (l : List Char) : Nat := l.foldl (fun a c => 10 * a + (c.toNat - 48)) 0

/-- Decimal digit run: at least one character, all ASCII digits. -/
def parseDigits : List Char → Option Nat
  | [] => none
  | l => if l.all Char.isDigit then some (digitsVal l) else none

/-- Rust unsigned-integer FromStr: an optional leading plus sign followed by
one or more ASCII digits; width bounds are applied separately. -/
def parseNonNeg (s : String) : Option Nat :=
  match s.data with
  | '+' :: rest => parseDigits rest
  | l => parseDigits l

/-- extract_id of the spec (NamingConvention): strip every occurrence of the
pattern from the name and parse the remainder, exactly the
name.replace(fmt, "").parse() idiom inlined in Environment::new. -/
def extract_id (name pat : String) : Option Nat := parseNonNeg (replaceRemove name pat)

/-- extract_id at u8 width, as for the day number (parse::<u8>). -/
def extract_u8 (name pat : String) : Option Nat :=
  match extract_id name pat with
  | some n => if n < 256 then some n else none
  | none => none

/-- extract_id at u16 width, as for the year (parse::<u16>). -/
def extract_u16 (name pat : String) : Option Nat :=
  match extract_id name pat with
  | some n => if n < 65536 then some n else none
  | none => none

/-- The Answer enum of main.rs. -/
inductive Answer where
  | Correct
  | Incorrect
  | AlreadySubmitted
  | RateLimited
deriving DecidableEq

def rightAnswerPhrase : String := "That\x27s the right answer!"

def wrongAnswerPhrase : String := "That\x27s not the right answer"

def alreadySolvedPhrase : String := "You don\x27t seem to be solving"

def tooRecentPhrase : String := "You gave an answer too recently"

/-- impl FromStr for Answer: classify a response body by substring checks in
priority order, first match winning. -/
def Answer.from_str (s : String) : Except String Answer :=
  if strContains s rightAnswerPhrase then .ok .Correct
  else if strContains s wrongAnswerPhrase then .ok .Incorrect
  else if strContains s alreadySolvedPhrase then .ok .AlreadySubmitted
  else if strContains s tooRecentPhrase then .ok .RateLimited
  else .error ("Unknown response: " ++ s)

/-- The Environment struct of main.rs (day: Option of u8, year: u16). -/
structure Environment where
  day : Option Nat
  year : Nat
deriving DecidableEq

inductive EnvironmentError where
  | InvalidYear
deriving DecidableEq

/-- The Error enum of main.rs. -/
inductive MainError where
  | EnvironmentError (e : EnvironmentError)
deriving DecidableEq

/-- Result of Environment::new: Ok, Err, or a panic coming from .unwrap() on
a failed integer parse of a directory name remainder. -/
inductive EnvResult where
  | ok (env : Environment)
  | err (e : MainError)
  | panicked
deriving DecidableEq

/-- Environment::new, over the current and parent directory names: if the
parent contains the year format, extract year from the parent and day from
the current name; else if the current name contains the year format, extract
year from it with no day; else Err(InvalidYear). -/
def Environment.new (day_format year_format current_dir parent_dir : String) : EnvResult :=
  if strContains parent_dir year_format then
    match extract_u16 parent_dir year_format, extract_u8 current_dir day_format with
    | some y, some d => .ok ⟨some d, y⟩
    | _, _ => .panicked
  else if strContains current_dir year_format then
    match extract_u16 current_dir year_format with
    | some y => .ok ⟨none, y⟩
    | none => .panicked
  else .err (.EnvironmentError .InvalidYear)

/-- Environment::check_day: the current directory name must contain the day
format. -/
def Environment.check_day (day_format current_dir : String) : Except String Unit :=
  if !strContains current_dir day_format then
    .error ("Current directory not valid, <" ++ current_dir ++ ">. Should look like <" ++
      day_format ++ ">")
  else .ok ()

/-- Environment::check_year: either the parent or the current directory name
must contain the year format. -/
def Environment.check_year (year_format current_dir parent_dir : String) : Except String Unit :=
  if !strContains parent_dir year_format && !strContains current_dir year_format then
    .error ("Parent directory not valid: " ++ parent_dir ++ ". Should look like <" ++
      year_format ++ ">")
  else .ok ()

/-- A reqwest blocking RequestBuilder, reduced to the parts the program
sets. -/
structure RequestBuilder where
  method : String
  url : String
  headers : List (String × String)
  formBody : Option (List (String × String))
deriving DecidableEq

def clientGet (url : String) : RequestBuilder := ⟨"GET", url, [], none⟩

def clientPost (url : String) : RequestBuilder := ⟨"POST", url, [], none⟩

/-- reqwest RequestBuilder::header: appends one header pair. -/
def RequestBuilder.header (rb : RequestBuilder) (k v : String) : RequestBuilder :=
  { rb with headers := rb.headers ++ [(k, v)] }

/-- reqwest RequestBuilder::form: sets the body to the url-encoded
serialization of the given pairs, replacing any body set earlier; a second
call to form does not merge with the first. -/
def RequestBuilder.form (rb : RequestBuilder) (fields : List (String × String)) : RequestBuilder :=
  { rb with formBody := some fields }

/-- Observable actions of one invocation. -/
inductive Event where
  | req (r : RequestBuilder)
  | sleep (ms : Nat)
  | msg (s : String)
  | exitp (code : Nat)
  | writeF (path : String)
  | createDir (path : String)
  | spawn (cmd : String)
  | panicked
deriving DecidableEq

def isReq : Event → Bool
  | .req _ => true
  | _ => false

/-- Number of HTTP requests sent in a trace. -/
def requestCount (es : List Event) : Nat := es.countP isReq

def exitCodes (es : List Event) : List Nat :=
  es.filterMap fun e =>
    match e with
    | .exitp c => some c
    | _ => none

/-- Exit status of the process: the first explicit exit in the trace, else 0
when main falls through normally. -/
def final_code (es : List Event) : Nat := (exitCodes es).headD 0

def inputUrl (year day : Nat) : String :=
  "https://adventofcode.com/" ++ toString year ++ "/day/" ++ toString day ++ "/input"

def noSessionMsg : String := "session key not set in .env file"

def retryingMsg : String := "Puzzle has not yet opened, retrying..."

def lockedMsg : String := "Puzzle has not yet opened, please try again later."

/-- First request of get_input: its Cookie header is the raw credential
value, with no session= in front. -/
def initialInputRequest (year day : Nat) (cookie : String) : RequestBuilder :=
  ((clientGet (inputUrl year day)).header "Cookie" cookie).header "User-Agent" "AceofSpades5757"

/-- Requests sent inside the 404 retry loop: their Cookie header is
session= followed by the credential. -/
def retryInputRequest (year day : Nat) (cookie : String) : RequestBuilder :=
  ((clientGet (inputUrl year day)).header "Cookie" ("session=" ++ cookie)).header
    "User-Agent" "AceofSpades5757"

/-- Events of the while loop of get_input: while the response indexed r is
404 and the tries budget remains, print, send the retry request, then sleep
1000 ms. -/
def retryEvents (req : RequestBuilder) (status : Nat → Nat) : Nat → Nat → List Event
  | 0, _ => []
  | Nat.succ fuel, r =>
    if status r = 404 then
      .msg retryingMsg :: .req req :: .sleep 1000 :: retryEvents req status fuel (r + 1)
    else []

/-- Number of retry requests the loop sends; also the index of the response
held after the loop, response k answering request k with request 0 the
initial one. -/
def retryCount (status : Nat → Nat) : Nat → Nat → Nat
  | 0, _ => 0
  | Nat.succ fuel, r => if status r = 404 then retryCount status fuel (r + 1) + 1 else 0

/-- get_input of main.rs as an event trace.  session is env::var("session");
status k is the HTTP status of the k-th request sent. -/
def get_input_events (year day : Nat) (session : Option String) (status : Nat → Nat) : List Event :=
  match session with
  | none => [.msg noSessionMsg, .exitp 1]
  | some cookie =>
    .req (initialInputRequest year day cookie) ::
      (retryEvents (retryInputRequest year day cookie) status 5 0 ++
        (if status (retryCount status 5 0) = 404 then [.msg lockedMsg, .exitp 1] else []))

def answerUrl (year day : Nat) : String :=
  "https://adventofcode.com/" ++ toString year ++ "/day/" ++ toString day ++ "/answer"

/-- The POST request submit_answer builds: two successive form calls, the
second of which replaces the body installed by the first. -/
def submit_request (year day part : Nat) (cookie answer : String) : RequestBuilder :=
  ((((clientPost (answerUrl year day)).header "Cookie" ("session=" ++ cookie)).header
      "User-Agent" "AceofSpades5757").form [("level", toString part)]).form [("answer", answer)]

/-- submit_answer of main.rs as an event trace; body is the response text,
whose failed classification is the text.parse().unwrap() panic. -/
def submit_events (year day part : Nat) (answer : String) (session : Option String)
    (body : String) : List Event :=
  match session with
  | none => [.msg noSessionMsg, .exitp 1]
  | some cookie =>
    .req (submit_request year day part cookie answer) ::
      (match Answer.from_str body with
       | .ok _ => []
       | .error _ => [.panicked])

def envInvalidMsg : String := "Invalid environment: EnvironmentError(InvalidYear)"

/-- The Input command of main: resolve the environment, run the two
directory checks, unwrap the day, fetch, then write input.txt.  writeOk is
the outcome of the filesystem write; a failed write is only reported, never
escalated, and main then falls through with exit status 0. -/
def main_input (day_format year_format current_dir parent_dir : String)
    (session : Option String) (status : Nat → Nat) (writeOk : Bool) : List Event :=
  match Environment.new day_format year_format current_dir parent_dir with
  | .panicked => [.panicked]
  | .err _ => [.msg envInvalidMsg, .exitp 1]
  | .ok env =>
    match Environment.check_day day_format current_dir with
    | .error e => [.msg ("Error: " ++ e), .exitp 1]
    | .ok _ =>
      match Environment.check_year year_format current_dir parent_dir with
      | .error e => [.msg ("Error: " ++ e), .exitp 1]
      | .ok _ =>
        match env.day with
        | none => [.panicked]
        | some d =>
          if session = none ∨ status (retryCount status 5 0) = 404 then
            get_input_events env.year d session status
          else
            get_input_events env.year d session status ++
              [.writeF "input.txt",
               .msg (if writeOk then "Success" else "Failed to write input file")]

def answerMsg : Answer → String
  | .Correct => "Correct"
  | .Incorrect => "Incorrect"
  | .AlreadySubmitted => "Already Submitted"
  | .RateLimited => "Rate Limited"

/-- The Submit command of main: resolve the environment, run the two
directory checks, unwrap the day, pick the part by whether part_2.rs exists,
run the solution binary, then submit its output. -/
def main_submit (day_format year_format current_dir parent_dir : String)
    (session : Option String) (answer body : String) (part2exists : Bool) : List Event :=
  match Environment.new day_format year_format current_dir parent_dir with
  | .panicked => [.panicked]
  | .err _ => [.msg envInvalidMsg, .exitp 1]
  | .ok env =>
    match Environment.check_day day_format current_dir with
    | .error e => [.msg ("Error: " ++ e), .exitp 1]
    | .ok _ =>
      match Environment.check_year year_format current_dir parent_dir with
      | .error e => [.msg ("Error: " ++ e), .exitp 1]
      | .ok _ =>
        match env.day with
        | none => [.panicked]
        | some d =>
          let part : Nat := if part2exists then 2 else 1
          .spawn ("cargo run --bin part_" ++ toString part) ::
            (submit_events env.year d part answer session body ++
              (match session, Answer.from_str body with
               | some _, .ok a => [.msg (answerMsg a)]
               | _, _ => []))

/-- Highest day number among the directory entries whose name contains the
day format; a failed parse defaults to 0 via unwrap_or(0). -/
def highestDay (day_format : String) (entries : List String) : Nat :=
  entries.foldl
    (fun acc name =>
      if strContains name day_format then
        if (extract_u8 name day_format).getD 0 > acc then (extract_u8 name day_format).getD 0
        else acc
      else acc)
    0

/-- Rust format with the 02 width spec: zero-pad to at least two digits. -/
def pad2 (n : Nat) : String := if n < 10 then "0" ++ toString n else toString n

/-- Name of the next day directory: the day format followed by the
two-digit-padded successor of the highest existing day. -/
def new_day_str (day_format : String) (entries : List String) : String :=
  day_format ++ pad2 (highestDay day_format entries + 1)

/-- The Day command of main: check_year, then create the new day directory
and keep going through the Cargo.toml update and template writes regardless
of earlier failures; fsOk i is the outcome of the i-th filesystem operation
and main falls through with exit status 0 in every case. -/
def main_day (day_format year_format current_dir parent_dir : String)
    (entries : List String) (fsOk : Nat → Bool) : List Event :=
  match Environment.new day_format year_format current_dir parent_dir with
  | .panicked => [.panicked]
  | .err _ => [.msg envInvalidMsg, .exitp 1]
  | .ok _ =>
    match Environment.check_year year_format current_dir parent_dir with
    | .error e => [.msg ("Error: " ++ e), .exitp 1]
    | .ok _ =>
      let name := new_day_str day_format entries
      [.createDir name,
       .msg (if fsOk 0 then "New Day Directory: Success" else "Failed to create new day directory"),
       .writeF "Cargo.toml",
       .msg (if fsOk 1 then "Update Cargo.toml: Success" else "Failed to update Cargo.toml"),
       .writeF (name ++ "/Cargo.toml"),
       .msg (if fsOk 2 then "New Cargo.toml: Success" else "Failed to create new Cargo.toml"),
       .createDir (name ++ "/src"),
       .msg (if fsOk 3 then "New src Directory: Success" else "Failed to create new src directory"),
       .createDir (name ++ "/src/bin"),
       .msg (if fsOk 4 then "New src/bin Directory: Success"
             else "Failed to create new src/bin directory"),
       .writeF (name ++ "/src/bin/part_1.rs"),
       .msg (if fsOk 5 then "New src/bin/part_1.rs: Success"
             else "Failed to create new src/bin/part_1.rs")]

/-- Suffix test used to state the zero-padding property. -/
def strEndsWith (s t : String) : Bool := t.data.isSuffixOf s.data


/-- Nonempty left operand of an append is a Boolean prefix of the append. -/
theorem isPrefixOf_self_append (l t : List Char) : l.isPrefixOf (l ++ t) = true := by
  induction l with
  | nil => simp [List.isPrefixOf]
  | cons c l ih => simp [List.isPrefixOf, ih]

/-- Replacing occurrences of the empty pattern with nothing is the identity. -/
theorem stripAllGo_nil_pat (t : List Char) : stripAllGo [] t 0 = t := by
  induction t with
  | nil => rfl
  | cons c t ih => simp [stripAllGo, ih]

/-- While the skip counter covers a block, the scanner drops it verbatim. -/
theorem stripAllGo_skip (pat l t : List Char) :
    stripAllGo pat (l ++ t) l.length = stripAllGo pat t 0 := by
  induction l with
  | nil => rfl
  | cons c l ih => simpa [stripAllGo] using ih

/-- A pattern whose head never occurs in the text is never matched, so the
scan leaves the text unchanged. -/
theorem stripAllGo_not_head (p : Char) (ptl t : List Char) (hp : p ∉ t) :
    stripAllGo (p :: ptl) t 0 = t := by
  induction t with
  | nil => rfl
  | cons c t ih =>
    have hpc : (p == c) = false := by
      simp only [beq_eq_false_iff_ne, ne_eq]
      intro h
      exact hp (by simp [h])
    have hmem : p ∉ t := fun h => hp (List.mem_cons_of_mem _ h)
    simp [stripAllGo, List.isPrefixOf, hpc, ih hmem]

/-- Stripping a pattern from pattern-then-tail leaves exactly the tail when
no character of the pattern occurs in the tail. -/
theorem stripAllGo_strip (pre suf : List Char) (hd : ∀ p ∈ pre, p ∉ suf) :
    stripAllGo pre (pre ++ suf) 0 = suf := by
  match pre with
  | [] => exact stripAllGo_nil_pat suf
  | p :: ptl =>
    have hpre : (p :: ptl).isPrefixOf (p :: (ptl ++ suf)) = true :=
      isPrefixOf_self_append (p :: ptl) suf
    have h1 : stripAllGo (p :: ptl) ((p :: ptl) ++ suf) 0 =
        stripAllGo (p :: ptl) (ptl ++ suf) ptl.length := by
      simp [stripAllGo, hpre]
    rw [h1, stripAllGo_skip, stripAllGo_not_head p ptl suf (hd p (List.mem_cons_self _ _))]

/-- The retry loop sends nothing when the pending response is not a 404. -/
theorem retryEvents_stop (req : RequestBuilder) (status : Nat → Nat) (fuel r : Nat)
    (h : ¬ status r = 404) : retryEvents req status (fuel + 1) r = [] := by
  simp [retryEvents, h]

/-- The retry counter is zero when the pending response is not a 404. -/
theorem retryCount_stop (status : Nat → Nat) (fuel r : Nat)
    (h : ¬ status r = 404) : retryCount status (fuel + 1) r = 0 := by
  simp [retryCount, h]

/-- A string append ends with its right operand. -/
theorem strEndsWith_append (a b : String) : strEndsWith (a ++ b) b = true := by
  have h : (a ++ b).data = a.data ++ b.data := rfl
  simp [strEndsWith, List.isSuffixOf, h, List.reverse_append, isPrefixOf_self_append]

/-- Claim C1, counterexample: when every response is 404, get_input sends 6
requests in total (the initial request plus 5 retries), not a maximum of 5
attempts overall as the claim states. -/
theorem C1_counterexample :
    requestCount (get_input_events 2022 7 (some "abc") (fun _ => 404)) = 6 ∧
    ¬ requestCount (get_input_events 2022 7 (some "abc") (fun _ => 404)) ≤ 5 := by
  constructor
  · rfl
  · decide

/-- Claim C1, amended: when every response to the GET input request is 404,
the request is retried exactly 5 times, for 6 requests in total, with the
1-second sleep coming after each retry rather than before it, and the
invocation then fails fatally with exit code 1; when the first response is
not 404, zero additional requests are made. -/
theorem C1_amended (year day : Nat) (cookie : String) (status : Nat → Nat) :
    ((∀ r, status r = 404) →
      get_input_events year day (some cookie) status =
        Event.req (initialInputRequest year day cookie) ::
        ([Event.msg retryingMsg, Event.req (retryInputRequest year day cookie), Event.sleep 1000] ++
         [Event.msg retryingMsg, Event.req (retryInputRequest year day cookie), Event.sleep 1000] ++
         [Event.msg retryingMsg, Event.req (retryInputRequest year day cookie), Event.sleep 1000] ++
         [Event.msg retryingMsg, Event.req (retryInputRequest year day cookie), Event.sleep 1000] ++
         [Event.msg retryingMsg, Event.req (retryInputRequest year day cookie), Event.sleep 1000] ++
         [Event.msg lockedMsg, Event.exitp 1])) ∧
    (status 0 ≠ 404 →
      get_input_events year day (some cookie) status =
        [Event.req (initialInputRequest year day cookie)]) := by
  constructor
  · intro hall
    have hs : status = fun _ => 404 := funext hall
    subst hs
    rfl
  · intro h0
    have hre : retryEvents (retryInputRequest year day cookie) status 5 0 = [] :=
      retryEvents_stop _ _ 4 0 h0
    have hrc : retryCount status 5 0 = 0 := retryCount_stop _ 4 0 h0
    simp [get_input_events, hre, hrc, h0]

/-- Claim C1, witness: the amended statement evaluated at year 2022, day 7,
an all-404 status stream, and a first-response-200 status stream. -/
theorem C1_amended_witness :
    get_input_events 2022 7 (some "abc") (fun _ => 404) =
      Event.req (initialInputRequest 2022 7 "abc") ::
      ([Event.msg retryingMsg, Event.req (retryInputRequest 2022 7 "abc"), Event.sleep 1000] ++
       [Event.msg retryingMsg, Event.req (retryInputRequest 2022 7 "abc"), Event.sleep 1000] ++
       [Event.msg retryingMsg, Event.req (retryInputRequest 2022 7 "abc"), Event.sleep 1000] ++
       [Event.msg retryingMsg, Event.req (retryInputRequest 2022 7 "abc"), Event.sleep 1000] ++
       [Event.msg retryingMsg, Event.req (retryInputRequest 2022 7 "abc"), Event.sleep 1000] ++
       [Event.msg lockedMsg, Event.exitp 1]) ∧
    get_input_events 2022 7 (some "abc") (fun _ => 200) =
      [Event.req (initialInputRequest 2022 7 "abc")] :=
  ⟨(C1_amended 2022 7 "abc" fun _ => 404).1 (fun _ => rfl),
   (C1_amended 2022 7 "abc" fun _ => 200).2 (by decide)⟩

/-- Claim C2: the request submit_answer builds carries only the answer form
field; the second RequestBuilder.form call replaced the body holding the
level field, which the first form call had installed, so the claimed
level=part field is absent from the submitted body. -/
theorem C2_level_field_dropped :
    (submit_request 2022 7 1 "abc" "42").formBody = some [("answer", "42")] ∧
    ((((clientPost (answerUrl 2022 7)).header "Cookie" "session=abc").header
        "User-Agent" "AceofSpades5757").form [("level", "1")]).formBody = some [("level", "1")] ∧
    ((submit_request 2022 7 1 "abc" "42").formBody.getD []).all
      (fun p => decide (p.1 ≠ "level")) = true := by
  refine ⟨rfl, rfl, by decide⟩

/-- Claim C3: Answer classification checks the four server phrases in
priority order with first match winning, returning Correct, Incorrect,
AlreadySubmitted, RateLimited in that order, and an error when none of the
phrases occurs in the body. -/
theorem C3_classification (s : String) :
    (strContains s rightAnswerPhrase = true → Answer.from_str s = .ok .Correct) ∧
    (strContains s rightAnswerPhrase = false → strContains s wrongAnswerPhrase = true →
      Answer.from_str s = .ok .Incorrect) ∧
    (strContains s rightAnswerPhrase = false → strContains s wrongAnswerPhrase = false →
      strContains s alreadySolvedPhrase = true → Answer.from_str s = .ok .AlreadySubmitted) ∧
    (strContains s rightAnswerPhrase = false → strContains s wrongAnswerPhrase = false →
      strContains s alreadySolvedPhrase = false → strContains s tooRecentPhrase = true →
      Answer.from_str s = .ok .RateLimited) ∧
    (strContains s rightAnswerPhrase = false → strContains s wrongAnswerPhrase = false →
      strContains s alreadySolvedPhrase = false → strContains s tooRecentPhrase = false →
      Answer.from_str s = .error ("Unknown response: " ++ s)) := by
  refine ⟨?_, ?_, ?_, ?_, ?_⟩
  · intro h1
    simp [Answer.from_str, h1]
  · intro h1 h2
    simp [Answer.from_str, h1, h2]
  · intro h1 h2 h3
    simp [Answer.from_str, h1, h2, h3]
  · intro h1 h2 h3 h4
    simp [Answer.from_str, h1, h2, h3, h4]
  · intro h1 h2 h3 h4
    simp [Answer.from_str, h1, h2, h3, h4]

/-- Claim C3, witness: the classification evaluated on a body containing the
right-answer phrase and on an unrelated body. -/
theorem C3_witness :
    Answer.from_str "ok That\x27s the right answer! done" = .ok .Correct ∧
    Answer.from_str "unrelated text" = .error ("Unknown response: " ++ "unrelated text") :=
  ⟨(C3_classification _).1 (by decide),
   (C3_classification _).2.2.2.2 (by decide) (by decide) (by decide) (by decide)⟩

/-- Claim C4: when the parent directory name matches the year format and
both extractions succeed, resolution yields a day-directory Environment with
year from the parent and day from the current name; when only the current
name matches the year format and its extraction succeeds, a year-root
Environment with no day; when neither matches, Err(InvalidYear). -/
theorem C4_environment_resolution (df yf cur par : String) :
    (strContains par yf = true →
      ∀ y d, extract_u16 par yf = some y → extract_u8 cur df = some d →
        Environment.new df yf cur par = .ok ⟨some d, y⟩) ∧
    (strContains par yf = false → strContains cur yf = true →
      ∀ y, extract_u16 cur yf = some y →
        Environment.new df yf cur par = .ok ⟨none, y⟩) ∧
    (strContains par yf = false → strContains cur yf = false →
      Environment.new df yf cur par = .err (.EnvironmentError .InvalidYear)) := by
  refine ⟨?_, ?_, ?_⟩
  · intro hp y d hy hd
    simp [Environment.new, hp, hy, hd]
  · intro hp hc y hy
    simp [Environment.new, hp, hc, hy]
  · intro hp hc
    simp [Environment.new, hp, hc]

/-- Claim C4, witness: the three resolution branches evaluated on a day
directory, a year root, and an unrecognizable pair of names. -/
theorem C4_witness :
    Environment.new "day-" "advent-of-code-" "day-07" "advent-of-code-2022" =
      .ok ⟨some 7, 2022⟩ ∧
    Environment.new "day-" "advent-of-code-" "advent-of-code-2022" "home" =
      .ok ⟨none, 2022⟩ ∧
    Environment.new "day-" "advent-of-code-" "random" "rand" =
      .err (.EnvironmentError .InvalidYear) :=
  ⟨(C4_environment_resolution "day-" "advent-of-code-" "day-07" "advent-of-code-2022").1
      rfl 2022 7 rfl rfl,
   (C4_environment_resolution "day-" "advent-of-code-" "advent-of-code-2022" "home").2.1
      rfl rfl 2022 rfl,
   (C4_environment_resolution "day-" "advent-of-code-" "random" "rand").2.2 rfl rfl⟩

/-- Claim C5, counterexample: with pattern 1 and suffix 11, replace removes
every occurrence of the pattern, so extract_id of the concatenation fails to
parse instead of returning 11 as the claim states. -/
theorem C5_counterexample :
    parseNonNeg "11" = some 11 ∧
    extract_id ("1" ++ "11") "1" = none ∧
    extract_id ("1" ++ "11") "1" ≠ some 11 := by
  refine ⟨rfl, rfl, by decide⟩

/-- Claim C5, amended: extracting the identifier from prefix-then-suffix
using the prefix returns the integer value of the suffix, provided no
character of the prefix occurs in the suffix (replace removes every
occurrence of the prefix, not only the leading one). -/
theorem C5_amended (pre suf : String) (n : Nat)
    (hn : parseNonNeg suf = some n)
    (hd : ∀ p ∈ pre.data, p ∉ suf.data) :
    extract_id (pre ++ suf) pre = some n := by
  have h2 : (pre ++ suf).data = pre.data ++ suf.data := rfl
  have h3 : stripAllGo pre.data ((pre ++ suf)).data 0 = suf.data := by
    rw [h2]
    exact stripAllGo_strip pre.data suf.data hd
  have h1 : replaceRemove (pre ++ suf) pre = suf := by
    show String.mk (stripAllGo pre.data (pre ++ suf).data 0) = suf
    rw [h3]
  unfold extract_id
  rw [h1, hn]

/-- Claim C5, witness: the amended statement evaluated at the day prefix and
the suffix 07. -/
theorem C5_amended_witness : extract_id ("day-" ++ "07") "day-" = some 7 :=
  C5_amended "day-" "07" 7 rfl (by decide)

/-- Claim C6: the first GET input request carries Cookie with the raw
credential value, while the retry requests carry Cookie with session= in
front, so the first request lacks the claimed session={credential} header
and the retries are not identical to the first attempt. -/
theorem C6_cookie_header_mismatch :
    (initialInputRequest 2022 7 "abc").headers =
      [("Cookie", "abc"), ("User-Agent", "AceofSpades5757")] ∧
    (retryInputRequest 2022 7 "abc").headers =
      [("Cookie", "session=abc"), ("User-Agent", "AceofSpades5757")] ∧
    initialInputRequest 2022 7 "abc" ≠ retryInputRequest 2022 7 "abc" ∧
    get_input_events 2022 7 (some "abc") (fun k => if k = 0 then 404 else 200) =
      [Event.req (initialInputRequest 2022 7 "abc"),
       Event.msg retryingMsg,
       Event.req (retryInputRequest 2022 7 "abc"),
       Event.sleep 1000] := by
  refine ⟨rfl, rfl, by decide, rfl⟩

/-- Claim C7, counterexample: a failed write of input.txt prints a failure
message but the process still terminates with exit status 0, contradicting
the claim that every failure path exits with a non-zero status. -/
theorem C7_counterexample :
    final_code (main_input "day-" "advent-of-code-" "day-07" "advent-of-code-2022"
      (some "abc") (fun _ => 200) false) = 0 ∧
    Event.msg "Failed to write input file" ∈
      main_input "day-" "advent-of-code-" "day-07" "advent-of-code-2022"
        (some "abc") (fun _ => 200) false := by
  refine ⟨rfl, ?_⟩
  show Event.msg "Failed to write input file" ∈
    Event.req (initialInputRequest 2022 7 "abc") :: Event.writeF "input.txt" ::
      Event.msg "Failed to write input file" :: []
  exact List.mem_cons_of_mem _ (List.mem_cons_of_mem _ (List.mem_cons_self _ _))

/-- Claim C7, amended: environment-resolution failures and the missing
credential print a message and exit with code 1, but a failed input.txt
write only prints a message and the process exits 0, and the Day command
still writes Cargo.toml and the remaining scaffold files after every
filesystem operation fails, exiting 0 as well. -/
theorem C7_amended (df yf cur par c : String) (st : Nat → Nat) (wOk : Bool)
    (entries : List String) :
    (strContains par yf = false → strContains cur yf = false →
      main_input df yf cur par (some c) st wOk = [Event.msg envInvalidMsg, Event.exitp 1] ∧
      final_code (main_input df yf cur par (some c) st wOk) = 1) ∧
    (final_code (main_input "day-" "advent-of-code-" "day-07" "advent-of-code-2022"
        (some c) (fun _ => 200) false) = 0 ∧
      Event.msg "Failed to write input file" ∈
        main_input "day-" "advent-of-code-" "day-07" "advent-of-code-2022"
          (some c) (fun _ => 200) false) ∧
    (final_code (main_input "day-" "advent-of-code-" "day-07" "advent-of-code-2022"
        none st wOk) = 1) ∧
    (Event.writeF "Cargo.toml" ∈
        main_day "day-" "advent-of-code-" "advent-of-code-2022" "home" entries (fun _ => false) ∧
      final_code (main_day "day-" "advent-of-code-" "advent-of-code-2022" "home" entries
        (fun _ => false)) = 0) := by
  refine ⟨?_, ⟨rfl, ?_⟩, rfl, ?_, rfl⟩
  · intro hp hc
    have henv : Environment.new df yf cur par = .err (.EnvironmentError .InvalidYear) := by
      simp [Environment.new, hp, hc]
    have ht : main_input df yf cur par (some c) st wOk =
        [Event.msg envInvalidMsg, Event.exitp 1] := by
      simp [main_input, henv]
    exact ⟨ht, by rw [ht]; rfl⟩
  · show Event.msg "Failed to write input file" ∈
      Event.req (initialInputRequest 2022 7 c) :: Event.writeF "input.txt" ::
        Event.msg "Failed to write input file" :: []
    exact List.mem_cons_of_mem _ (List.mem_cons_of_mem _ (List.mem_cons_self _ _))
  · show Event.writeF "Cargo.toml" ∈
      Event.createDir (new_day_str "day-" entries) ::
        Event.msg "Failed to create new day directory" :: Event.writeF "Cargo.toml" ::
        Event.msg "Failed to update Cargo.toml" ::
        Event.writeF (new_day_str "day-" entries ++ "/Cargo.toml") ::
        Event.msg "Failed to create new Cargo.toml" ::
        Event.createDir (new_day_str "day-" entries ++ "/src") ::
        Event.msg "Failed to create new src directory" ::
        Event.createDir (new_day_str "day-" entries ++ "/src/bin") ::
        Event.msg "Failed to create new src/bin directory" ::
        Event.writeF (new_day_str "day-" entries ++ "/src/bin/part_1.rs") ::
        Event.msg "Failed to create new src/bin/part_1.rs" :: []
    exact List.mem_cons_of_mem _ (List.mem_cons_of_mem _ (List.mem_cons_self _ _))

/-- Claim C7, witness: the amended statement evaluated on an unrecognizable
directory pair and on a failed input.txt write. -/
theorem C7_amended_witness :
    main_input "day-" "advent-of-code-" "alpha" "beta" (some "abc") (fun _ => 200) true =
      [Event.msg envInvalidMsg, Event.exitp 1] ∧
    Event.msg "Failed to write input file" ∈
      main_input "day-" "advent-of-code-" "day-07" "advent-of-code-2022"
        (some "abc") (fun _ => 200) false :=
  ⟨((C7_amended "day-" "advent-of-code-" "alpha" "beta" "abc" (fun _ => 200) true []).1
      rfl rfl).1,
   (C7_amended "day-" "advent-of-code-" "day-07" "advent-of-code-2022" "abc"
      (fun _ => 200) false []).2.1.2⟩

/-- Claim C8: with the session credential absent, both get_input and
submit_answer print the credential message and exit with code 1 having sent
zero network requests. -/
theorem C8_missing_credential (y d p : Nat) (ans body : String) (st : Nat → Nat) :
    get_input_events y d none st = [Event.msg noSessionMsg, Event.exitp 1] ∧
    requestCount (get_input_events y d none st) = 0 ∧
    final_code (get_input_events y d none st) = 1 ∧
    submit_events y d p ans none body = [Event.msg noSessionMsg, Event.exitp 1] ∧
    requestCount (submit_events y d p ans none body) = 0 ∧
    final_code (submit_events y d p ans none body) = 1 :=
  ⟨rfl, rfl, rfl, rfl, rfl, rfl⟩

/-- Claim C9: the generated day directory name is the day format followed by
the successor of the highest existing day, zero-padded to two digits; with
highest day 9 the name ends in 10, and with highest day 0 it ends in 01. -/
theorem C9_day_name (df : String) (entries : List String) :
    new_day_str df entries = df ++ pad2 (highestDay df entries + 1) ∧
    (highestDay df entries = 9 → strEndsWith (new_day_str df entries) "10" = true) ∧
    (highestDay df entries = 0 → strEndsWith (new_day_str df entries) "01" = true) := by
  refine ⟨rfl, ?_, ?_⟩
  · intro h
    have ht : new_day_str df entries = df ++ "10" := by
      simp only [new_day_str, h]
      rfl
    rw [ht]
    exact strEndsWith_append df "10"
  · intro h
    have ht : new_day_str df entries = df ++ "01" := by
      simp only [new_day_str, h]
      rfl
    rw [ht]
    exact strEndsWith_append df "01"

/-- Claim C9, witness: the day-name statement evaluated on a listing whose
highest day is 9 and on an empty listing. -/
theorem C9_witness :
    strEndsWith (new_day_str "day-" ["day-09", "misc"]) "10" = true ∧
    strEndsWith (new_day_str "day-" []) "01" = true :=
  ⟨(C9_day_name "day-" ["day-09", "misc"]).2.1 rfl,
   (C9_day_name "day-" []).2.2 rfl⟩

/-- Claim C10: with day format 2 and the default year format, the current
directory advent-of-code-2022 under parent home passes both check_day and
check_year, resolves to an Environment with no day, and the Input and Submit
commands then panic on unwrapping the day instead of aborting cleanly before
any network or file operation. -/
theorem C10_validators_pass_but_day_absent :
    Environment.check_day "2" "advent-of-code-2022" = .ok () ∧
    Environment.check_year "advent-of-code-" "advent-of-code-2022" "home" = .ok () ∧
    Environment.new "2" "advent-of-code-" "advent-of-code-2022" "home" = .ok ⟨none, 2022⟩ ∧
    main_input "2" "advent-of-code-" "advent-of-code-2022" "home"
      (some "abc") (fun _ => 200) true = [Event.panicked] ∧
    main_submit "2" "advent-of-code-" "advent-of-code-2022" "home"
      (some "abc") "42" "any body" false = [Event.panicked] :=
  ⟨rfl, rfl, rfl, rfl, rfl⟩

end Aoc
